import Mathlib

/-!
Verification of the RAG evaluation toolkit.

This file gives a shallow embedding, in Lean 4, of the scoring and
validation logic of the repository:

* `RagEval` — the scoring core of `RAGEvaluatorV2`
  (`rag_evaluation_two_models_v2.py`): weight initialisation, keyword
  coverage, and the final weighted aggregation, together with the
  faithfulness heuristic of the variant evaluator
  (`安然-聯成化科拷貝/rag_evaluation_v2.py`).
* `Dashboard` — the judge-record pipeline of
  `streamlit_dashboard_v2_with_manual_gpt.py`: schema normalisation,
  dimension access, overall recomputation, consistency validation and
  the fallback parser control flow.
* `History` — the persistence state machine of
  `evaluation_history_manager.py`.

Conventions of the embedding:

* Text is `List Char`; `pandas` null/NaN answers are `Option` with
  `none` for the null case.
* Python numbers are modelled by `ℚ` (exact arithmetic); all inputs
  appearing in concrete witnesses are exactly representable floats.
* Python dicts are association lists keyed by `String`, with Python's
  insertion-order semantics (`dSet` replaces in place, `dPop` removes).
* Results of `re.findall` token extraction (numeric and date tokens)
  are supplied as data; the decision logic consuming them is embedded
  verbatim.  `json.loads`, `ast.literal_eval` and
  `normalize_json_like_text` are treated as oracle parameters of the
  parser control flow.
-/

namespace RagEval

/-- Text as a list of characters (a Python `str`). -/
abbrev Text := List Char

/-- Python `str.lower`, character by character (identity on CJK). -/
def lowerText (t : Text) : Text := t.map Char.toLower

/-- Python's `needle in hay` substring test. -/
def textContains (hay needle : Text) : Bool :=
  match hay with
  | [] => needle.isEmpty
  | h :: t => needle.isPrefixOf (h :: t) || textContains t needle

/-- Synonym table of `RAGEvaluatorV2._is_similar_term`. -/
def synonyms : List (Text × List Text) :=
  [ ("包商".toList, ["承包商".toList, "廠商".toList, "承攬商".toList]),
    ("負責人".toList, ["主管".toList, "管理人".toList, "聯絡人".toList]),
    ("工安".toList, ["安全".toList, "職安".toList, "工業安全".toList]),
    ("許可證".toList, ["許可".toList, "證明".toList, "核准".toList]) ]

/-- `RAGEvaluatorV2._is_similar_term`: a synonym-table key occurring in
the keyword whose listed synonym occurs in the lowercased answer. -/
def is_similar_term (keyword : Text) (answer : Text) : Bool :=
  let answerLower := lowerText answer
  synonyms.any (fun kv =>
    textContains keyword kv.1 && kv.2.any (fun term => textContains answerLower term))

/-- One keyword match test of `calculate_keyword_coverage`:
lowercased substring containment, else the synonym fallback. -/
def keywordMatchedBy (answer : Text) (keyword : Text) : Bool :=
  textContains (lowerText answer) (lowerText keyword) || is_similar_term keyword answer

/-- The detail dictionary returned by `calculate_keyword_coverage`:
the early return produces the keys `total`, `matched`, `missing`;
the main path produces the richer key set. -/
inductive CoverageDetails where
  | early (total matched : Nat) (missing : List Text)
  | full (total_keywords matched_keywords missing_keywords : Nat)
      (missing_list found_list : List Text) (matched_ratio : ℚ)
  deriving DecidableEq

/-- `RAGEvaluatorV2.calculate_keyword_coverage`: returns
(coverage score, matched keywords, details). -/
def calculate_keyword_coverage (answer : Option Text) (keywords : List Text) :
    ℚ × List Text × CoverageDetails :=
  match answer with
  | none => (0, [], .early 0 0 keywords)
  | some ans =>
    if keywords = [] then (0, [], .early 0 0 keywords)
    else
      let matched := keywords.filter (fun k => keywordMatchedBy ans k)
      let missing := keywords.filter (fun k => !(matched.contains k))
      let coverageRate : ℚ := (matched.length : ℚ) / (keywords.length : ℚ)
      (coverageRate * 100, matched,
        .full keywords.length matched.length missing.length missing matched coverageRate)

/-- The weight configuration dict `{"keyword": _, "semantic": _, "gpt": _}`. -/
structure Weights where
  keyword : ℚ
  semantic : ℚ
  gpt : ℚ
  deriving DecidableEq

/-- `RAGEvaluatorV2._initialize_weights`: caller-supplied weights are
returned unchanged; otherwise defaults chosen by the enabled layers. -/
def initialize_weights (supplied : Option Weights)
    (enableSemantic enableGpt : Bool) : Weights :=
  match supplied with
  | some w => w
  | none =>
    if enableSemantic && enableGpt then ⟨3/10, 3/10, 4/10⟩
    else if enableSemantic then ⟨1/2, 1/2, 0⟩
    else if enableGpt then ⟨4/10, 0, 6/10⟩
    else ⟨1, 0, 0⟩

/-- The `final_score` computation of `RAGEvaluatorV2.evaluate_answer`:
a disabled layer contributes score 0 (its weight is still applied to 0). -/
def evaluate_answer_final_score (w : Weights) (enableSemantic enableGpt : Bool)
    (keywordScore semanticScore gptOverall : ℚ) : ℚ :=
  keywordScore * w.keyword
    + (if enableSemantic then semanticScore else 0) * w.semantic
    + (if enableGpt then gptOverall else 0) * w.gpt

/-- The scores of the active layers (keyword is always active; the
semantic and GPT layers are active when enabled). -/
def activeLayerScores (enableSemantic enableGpt : Bool)
    (keywordScore semanticScore gptOverall : ℚ) : List ℚ :=
  keywordScore ::
    ((if enableSemantic then [semanticScore] else [])
      ++ (if enableGpt then [gptOverall] else []))

/-- Sum of the weights over the active layers. -/
def activeWeightSum (w : Weights) (enableSemantic enableGpt : Bool) : ℚ :=
  w.keyword + (if enableSemantic then w.semantic else 0)
    + (if enableGpt then w.gpt else 0)

/-- Results of the `re.findall` extractions on an answer text, for the
faithfulness heuristic: `numbers` holds the tokens matched by the
numeric pattern and `dates` those matched by the date pattern; the raw
text is kept for the connective-word count. -/
structure FaithAnswer where
  text : Text
  numbers : List Text
  dates : List Text

/-- The explanatory connective table of `evaluate_faithfulness`. -/
def explanation_words : List Text :=
  ["因此".toList, "所以".toList, "包括".toList, "例如".toList, "如".toList,
   "即".toList, "也就是".toList, "用於".toList, "目的".toList]

/-- `explanation_count`: the number of table words occurring in the answer. -/
def explanationCount (answer : Text) : Nat :=
  (explanation_words.filter (fun w => textContains answer w)).length

/-- `RAGEvaluatorV2.evaluate_faithfulness`
(`安然-聯成化科拷貝/rag_evaluation_v2.py`): a null answer short-circuits
to 100; otherwise the decision table on the unsupported numeric / date
tokens and the connective count.  Returns (score, description). -/
def evaluate_faithfulness (answer : Option FaithAnswer)
    (refNumbers refDates : List Text) : ℚ × String :=
  match answer with
  | none => (100, "無回答（無虛構風險）")
  | some a =>
    let extraNumbers := a.numbers.filter (fun n => !(refNumbers.contains n))
    let extraDates := a.dates.filter (fun d => !(refDates.contains d))
    let explCount := explanationCount a.text
    if extraNumbers.length > 2 || extraDates.length > 1 then
      (50, "中度忠實：包含多個未提及的具體數據")
    else if extraNumbers.length > 0 || extraDates.length > 0 then
      (75, "高度忠實：包含少量額外數據")
    else if explCount > 3 then
      (90, "極高忠實：添加合理解釋")
    else
      (100, "完全忠實：完全基於原始資料")

/-- The number of unsupported numeric tokens of an answer. -/
def extraNumberCount (answer : Option FaithAnswer) (refNumbers : List Text) : Nat :=
  match answer with
  | none => 0
  | some a => (a.numbers.filter (fun n => !(refNumbers.contains n))).length

/-- The number of unsupported date tokens of an answer. -/
def extraDateCount (answer : Option FaithAnswer) (refDates : List Text) : Nat :=
  match answer with
  | none => 0
  | some a => (a.dates.filter (fun d => !(refDates.contains d))).length

/-- The scope/faithfulness decision table as the specification words it:
top to bottom, first match wins; a null answer short-circuits to 100. -/
def faithfulnessSpecTable (isNull : Bool)
    (unsupportedNumeric unsupportedDate connectiveCount : Nat) : ℚ :=
  if isNull then 100
  else if unsupportedNumeric > 2 || unsupportedDate > 1 then 50
  else if unsupportedNumeric > 0 || unsupportedDate > 0 then 75
  else if connectiveCount > 3 then 90
  else 100

end RagEval

namespace Dashboard

/-- Python values, as produced by `json.loads` / `ast.literal_eval`:
dicts are insertion-ordered association lists with unique keys. -/
inductive PyVal where
  | none
  | boolv (b : Bool)
  | int (n : Int)
  | float (q : ℚ)
  | str (s : String)
  | list (xs : List PyVal)
  | dict (entries : List (String × PyVal))

/-- An association-list dictionary. -/
abbrev Dict := List (String × PyVal)

/-- `d.get(k)` as an `Option` (first occurrence). -/
def dLookup (d : Dict) (k : String) : Option PyVal :=
  match d with
  | [] => Option.none
  | (k', v) :: t => if k' = k then some v else dLookup t k

/-- Python `k in d`. -/
def dHasKey (d : Dict) (k : String) : Bool := (dLookup d k).isSome

/-- Python `d.get(k)` (`None` when the key is absent). -/
def dGet (d : Dict) (k : String) : PyVal := (dLookup d k).getD .none

/-- Python `d[k] = v`: replace in place, else append. -/
def dSet (d : Dict) (k : String) (v : PyVal) : Dict :=
  match d with
  | [] => [(k, v)]
  | (k', v') :: t => if k' = k then (k', v) :: t else (k', v') :: dSet t k v

/-- Python `d.pop(k)` (the removal part; remove the first occurrence). -/
def dPop (d : Dict) (k : String) : Dict :=
  match d with
  | [] => []
  | (k', v') :: t => if k' = k then t else (k', v') :: dPop t k

/-- Python `str.strip()` on raw character lists. -/
def stripText (t : RagEval.Text) : RagEval.Text :=
  ((t.dropWhile Char.isWhitespace).reverse.dropWhile Char.isWhitespace).reverse

/-- Whether a string is non-blank after `strip()`. -/
def strippedNonempty (s : String) : Bool := !(stripText s.toList).isEmpty

/-- The value of a Python number (`bool` counts as `int`). -/
def numValue (v : PyVal) : Option ℚ :=
  match v with
  | .boolv b => some (if b then 1 else 0)
  | .int n => some (n : ℚ)
  | .float q => some q
  | _ => Option.none

/-- `isinstance(value, (int, float))` (true for `bool` as well). -/
def pyIsNum (v : PyVal) : Bool := (numValue v).isSome

/-- The value of digit characters read in base 10. -/
def digitsToNat (ds : List Char) : Nat :=
  ds.foldl (fun acc c => acc * 10 + (c.toNat - 48)) 0

/-- Unsigned part of a Python float literal: digits with an optional
single fractional point (exponents are not used by the repository's data). -/
def parseUnsignedFloat (t : RagEval.Text) : Option ℚ :=
  let intPart := t.takeWhile Char.isDigit
  let rest := t.dropWhile Char.isDigit
  match rest with
  | [] => if intPart.isEmpty then Option.none else some (digitsToNat intPart : ℚ)
  | '.' :: frac =>
    if frac.all Char.isDigit && !(intPart.isEmpty && frac.isEmpty) then
      some ((digitsToNat intPart : ℚ) + (digitsToNat frac : ℚ) / (10 ^ frac.length : ℚ))
    else Option.none
  | _ => Option.none

/-- Python `float(s)` on a string: strip, optional sign, decimal literal. -/
def parseFloatText (t : RagEval.Text) : Option ℚ :=
  match stripText t with
  | '+' :: rest => parseUnsignedFloat rest
  | '-' :: rest => (parseUnsignedFloat rest).map Neg.neg
  | rest => parseUnsignedFloat rest

/-- Python `float(value)`: numbers convert, strings parse, anything
else raises (`Option.none` stands for the raised error). -/
def pyFloat (v : PyVal) : Option ℚ :=
  match v with
  | .str s => parseFloatText s.toList
  | other => numValue other

/-- Python truthiness. -/
def pyTruthy (v : PyVal) : Bool :=
  match v with
  | .none => false
  | .boolv b => b
  | .int n => n != 0
  | .float q => q != 0
  | .str s => s != ""
  | .list xs => !xs.isEmpty
  | .dict d => !d.isEmpty

/-- `GPT_DIMENSION_KEYS`. -/
def GPT_DIMENSION_KEYS : List String :=
  ["relevance", "completeness", "accuracy", "faithfulness"]

/-- The block synthesized for a non-dict dimension value by
`normalize_gpt_schema` (and by `get_dimension_block`): numbers become a
`score`, other non-null values become a `score` when `float()` accepts
them and a `raw_value` otherwise. -/
def synthBlock (value : PyVal) : Dict :=
  match value with
  | .none => []
  | .boolv b => [("score", .float (if b then 1 else 0))]
  | .int n => [("score", .float (n : ℚ))]
  | .float q => [("score", .float q)]
  | other =>
    match pyFloat other with
    | some q => [("score", .float q)]
    | Option.none => [("raw_value", other)]

/-- The body of `normalize_gpt_schema`'s loop for one dimension key. -/
def normStep (d : Dict) (dim : String) : Dict :=
  let rk := dim ++ "_reasoning"
  match dGet d dim with
  | .dict v =>
    let d1 :=
      if dHasKey d rk && !(dHasKey v "reasoning") && pyTruthy (dGet d rk) then
        dSet d dim (.dict (dSet v "reasoning" (dGet d rk)))
      else d
    if dHasKey d1 rk then dPop d1 rk else d1
  | value =>
    let block0 := synthBlock value
    let block1 :=
      if dHasKey d rk then
        match dGet d rk with
        | .str s => if strippedNonempty s then dSet block0 "reasoning" (.str s) else block0
        | _ => block0
      else block0
    let d1 := if dHasKey d rk then dPop d rk else d
    dSet d1 dim (.dict block1)

/-- `normalize_gpt_schema`: non-dicts pass through; each dimension key
is rewritten to a nested block and its flat `_reasoning` key is folded in. -/
def normalize_gpt_schema (p : PyVal) : PyVal :=
  match p with
  | .dict d => .dict (GPT_DIMENSION_KEYS.foldl normStep d)
  | other => other

/-- `get_dimension_block`: nested blocks are returned as-is; flat
values are synthesized into a block, picking up a flat `_reasoning`. -/
def get_dimension_block (gpt_data : PyVal) (dim : String) : Dict :=
  match gpt_data with
  | .dict d =>
    match dGet d dim with
    | .dict v => v
    | value =>
      let block0 := synthBlock value
      match dGet d (dim ++ "_reasoning") with
      | .str s => if strippedNonempty s then dSet block0 "reasoning" (.str s) else block0
      | _ => block0
  | _ => []

/-- `get_dimension_score`: the block's `score` through `float()`,
`Option.none` when absent or unparsable. -/
def get_dimension_score (gpt_data : PyVal) (dim : String) : Option ℚ :=
  pyFloat (dGet (get_dimension_block gpt_data dim) "score")

/-- Whether `get_dimension_reasoning` returns a falsy (blank) string:
a missing `reasoning` or a blank string is falsy; any other value
stringifies to non-blank text. -/
def dimensionReasoningBlank (gpt_data : PyVal) (dim : String) : Bool :=
  match dGet (get_dimension_block gpt_data dim) "reasoning" with
  | .none => true
  | .str s => (stripText s.toList).isEmpty
  | _ => false

/-- `get_gpt_dimension_weights`: clamp the configured weights to the
selected dimensions (non-numbers and negatives read as 0), then
normalize by the total, or fall back to an equal split. -/
def get_gpt_dimension_weights (settings : Dict) (selected : List String) :
    List (String × ℚ) :=
  let weights := selected.map (fun dim =>
    (dim, match numValue (dGet settings dim) with
          | some q => if 0 ≤ q then q else 0
          | Option.none => 0))
  let total := (weights.map Prod.snd).sum
  if total ≤ 0 then selected.map (fun dim => (dim, 1 / (selected.length : ℚ)))
  else weights.map (fun p => (p.1, p.2 / total))

/-- Python `weights.get(dim, 0.0)` over the weight association list. -/
def weightOf (weights : List (String × ℚ)) (dim : String) : ℚ :=
  match weights with
  | [] => 0
  | (k, w) :: t => if k = dim then w else weightOf t dim

/-- `compute_gpt_overall`: accumulate score·weight over the selected
dimensions that carry a parsable score; divide by the applied weight
when positive, otherwise fall back to `float(gpt_data.get('overall'))`
and finally to 0.0. -/
def compute_gpt_overall (gpt_data : PyVal) (dims : List String)
    (weights : List (String × ℚ)) : ℚ :=
  match gpt_data with
  | .dict d =>
    let acc := dims.foldl (fun (acc : ℚ × ℚ) dim =>
      match get_dimension_score (.dict d) dim with
      | Option.none => acc
      | some v => (acc.1 + v * weightOf weights dim, acc.2 + weightOf weights dim)) (0, 0)
    if 0 < acc.2 then acc.1 / acc.2
    else
      match pyFloat (dGet d "overall") with
      | some q => q
      | Option.none => 0
  | _ => 0

/-- Modelled from the spec (claim C10's reading of the weighted path):
the weighted sum over the score-carrying dimensions divided by the sum
of their applied weights. -/
def specWeightedOverall (gpt_data : PyVal) (dims : List String)
    (weights : List (String × ℚ)) : ℚ :=
  let scored := dims.filter (fun dim => (get_dimension_score gpt_data dim).isSome)
  (scored.map (fun dim =>
      ((get_dimension_score gpt_data dim).getD 0) * weightOf weights dim)).sum
    / (scored.map (fun dim => weightOf weights dim)).sum

end Dashboard

namespace Dashboard

/-- The warnings `validate_scoring_consistency` can append, abstracted
from their message strings, in source order. -/
inductive VWarn where
  | noQuestionId
  | blankOverallReasoning
  | dimNoReasoning (dim : String)
  | dimNoDrivers (dim : String)
  | dimNoPositive (dim : String)
  | dimNoNegative (dim : String)
  | pMissing
  | qMissing
  | kMissing
  | kRange
  | rMissing
  | gMissing
  | overallMismatch
  deriving DecidableEq

/-- The hard errors `validate_scoring_consistency` can append,
abstracted from their message strings, in source order. -/
inductive VErr where
  | notJsonObject
  | missingOverall
  | overallRange
  | overallUnparsable
  | missingDim (dim : String)
  | dimNoScore (dim : String)
  | dimScoreRange (dim : String)
  | pRange
  | pUnparsable
  | qRange
  | qUnparsable
  | kUnparsable
  | rRange
  | rUnparsable
  | gRange
  | gUnparsable
  deriving DecidableEq

/-- The shared shape of the `p`/`q`/`r`/`g` checks: missing is a
warning, out of `[0,1]` is an error, unparsable is an error. -/
def checkMetric01 (block : Dict) (key : String)
    (missW : VWarn) (rangeE unparsE : VErr) : List VWarn × List VErr :=
  match dGet block key with
  | .none => ([missW], [])
  | v =>
    match pyFloat v with
    | some x => if 0 ≤ x ∧ x ≤ 1 then ([], []) else ([], [rangeE])
    | Option.none => ([], [unparsE])

/-- The `completeness.k` check: missing is a warning, out of
`[0.8, 1.0]` is only a warning, unparsable is an error. -/
def checkMetricK (block : Dict) : List VWarn × List VErr :=
  match dGet block "k" with
  | .none => ([VWarn.kMissing], [])
  | v =>
    match pyFloat v with
    | some x => if 0.8 ≤ x ∧ x ≤ 1 then ([], []) else ([VWarn.kRange], [])
    | Option.none => ([], [VErr.kUnparsable])

/-- The per-dimension body of `validate_scoring_consistency`: returns
(warnings, errors, the in-range score when recorded). -/
def checkDim (parsed : PyVal) (dim : String) : List VWarn × List VErr × Option ℚ :=
  let block := get_dimension_block parsed dim
  if block.isEmpty then ([], [VErr.missingDim dim], Option.none)
  else
    match get_dimension_score parsed dim with
    | Option.none => ([], [VErr.dimNoScore dim], Option.none)
    | some score =>
      let scoreCheck : List VErr × Option ℚ :=
        if 0 ≤ score ∧ score ≤ 100 then ([], some score)
        else ([VErr.dimScoreRange dim], Option.none)
      let reasoningW := if dimensionReasoningBlank parsed dim then [VWarn.dimNoReasoning dim] else []
      let driversW :=
        match dGet block "score_drivers" with
        | .dict dd =>
          (if pyTruthy (dGet dd "positive") then [] else [VWarn.dimNoPositive dim])
            ++ (if pyTruthy (dGet dd "negative") then [] else [VWarn.dimNoNegative dim])
        | _ => [VWarn.dimNoDrivers dim]
      let metric : List VWarn × List VErr :=
        if dim = "relevance" then checkMetric01 block "p" .pMissing .pRange .pUnparsable
        else if dim = "completeness" then
          let w1e1 := checkMetric01 block "q" .qMissing .qRange .qUnparsable
          let w2e2 := checkMetricK block
          (w1e1.1 ++ w2e2.1, w1e1.2 ++ w2e2.2)
        else if dim = "accuracy" then checkMetric01 block "r" .rMissing .rRange .rUnparsable
        else if dim = "faithfulness" then checkMetric01 block "g" .gMissing .gRange .gUnparsable
        else ([], [])
      (reasoningW ++ driversW ++ metric.1, scoreCheck.1 ++ metric.2, scoreCheck.2)

/-- `validate_scoring_consistency`: returns (warnings, errors) with
entries in program order. -/
def validate_scoring_consistency (parsed : PyVal) : List VWarn × List VErr :=
  match parsed with
  | .dict r =>
    let qidW := if dHasKey r "question_id" then [] else [VWarn.noQuestionId]
    let overall := dGet r "overall"
    let overallE : List VErr :=
      match overall with
      | .none => [VErr.missingOverall]
      | v =>
        match pyFloat v with
        | some x => if 0 ≤ x ∧ x ≤ 100 then [] else [VErr.overallRange]
        | Option.none => [VErr.overallUnparsable]
    let orW : List VWarn :=
      match (dLookup r "overall_reasoning").getD (.str "") with
      | .str s => if strippedNonempty s then [] else [VWarn.blankOverallReasoning]
      | _ => [VWarn.blankOverallReasoning]
    let dimResults := GPT_DIMENSION_KEYS.map (fun dim => checkDim (.dict r) dim)
    let dimWarns := (dimResults.map (fun t => t.1)).foldr (· ++ ·) []
    let dimErrs := (dimResults.map (fun t => t.2.1)).foldr (· ++ ·) []
    let dimScores := (dimResults.map (fun t => t.2.2)).reduceOption
    let mismatchW : List VWarn :=
      match overall with
      | .none => []
      | ov =>
        if dimScores.length = GPT_DIMENSION_KEYS.length then
          match pyFloat ov with
          | some f =>
            if |dimScores.sum / (GPT_DIMENSION_KEYS.length : ℚ) - f| > 2 then
              [VWarn.overallMismatch]
            else []
          | Option.none => []
        else []
    (qidW ++ orW ++ dimWarns ++ mismatchW, overallE ++ dimErrs)
  | _ => ([], [VErr.notJsonObject])

/-- A well-filled `score_drivers` block. -/
def mkDriverBlock : PyVal :=
  .dict [("positive", .list [.str "涵蓋重點"]), ("negative", .list [.str "少量遺漏"])]

/-- A dimension block with a score, reasoning, drivers and one metric. -/
def mkDimBlock (score : ℚ) (metricKey : String) (metricVal : ℚ) : PyVal :=
  .dict [("score", .float score), ("reasoning", .str "說明"),
         ("score_drivers", mkDriverBlock), (metricKey, .float metricVal)]

/-- The completeness block carries both `q` and `k`. -/
def mkCompletenessBlock (score q k : ℚ) : PyVal :=
  .dict [("score", .float score), ("reasoning", .str "說明"),
         ("score_drivers", mkDriverBlock), ("q", .float q), ("k", .float k)]

/-- A fully populated judge record with the given scores and metrics. -/
def mkFullRecord (s1 s2 s3 s4 ov p q k r g : ℚ) : PyVal :=
  .dict [("question_id", .int 1),
         ("overall", .float ov),
         ("overall_reasoning", .str "整體總結"),
         ("relevance", mkDimBlock s1 "p" p),
         ("completeness", mkCompletenessBlock s2 q k),
         ("accuracy", mkDimBlock s3 "r" r),
         ("faithfulness", mkDimBlock s4 "g" g)]

/-- The full record with the relevance dimension removed entirely. -/
def mkRecordMissingRelevance (s2 s3 s4 ov q k r g : ℚ) : PyVal :=
  .dict [("question_id", .int 1),
         ("overall", .float ov),
         ("overall_reasoning", .str "整體總結"),
         ("completeness", mkCompletenessBlock s2 q k),
         ("accuracy", mkDimBlock s3 "r" r),
         ("faithfulness", mkDimBlock s4 "g" g)]

end Dashboard

namespace Dashboard

/-- The opening brace character. -/
def lbrace : Char := '\x7b'

/-- The closing brace character. -/
def rbrace : Char := '\x7d'

/-- The leftmost-longest match of `re.search` with the DOTALL pattern
matching a brace-delimited substring: from the first opening brace to
the last closing brace that follows it. -/
def braceExtract (t : RagEval.Text) : Option RagEval.Text :=
  match t.findIdx? (· = lbrace) with
  | Option.none => Option.none
  | some i =>
    match t.reverse.findIdx? (· = rbrace) with
    | Option.none => Option.none
    | some rj =>
      let j := t.length - 1 - rj
      if i < j then some ((t.drop i).take (j - i + 1)) else Option.none

/-- Normalize a successfully loaded value as `parse_gpt_response`
does: dicts go through `normalize_gpt_schema`, anything else is
returned as loaded. -/
def normalizeLoaded (v : PyVal) : PyVal :=
  match v with
  | .dict d => normalize_gpt_schema (.dict d)
  | other => other

/-- The brace-snippet fallback inside `parse_gpt_response`'s loop:
re-apply `json.loads` (`jl`) and `ast.literal_eval` (`le`, accepted
only when it yields a dict) to the extracted snippet. -/
def trySnippet (jl le : RagEval.Text → Option PyVal) (c : RagEval.Text) : Option PyVal :=
  match braceExtract c with
  | Option.none => Option.none
  | some snippetRaw =>
    let snippet := stripText snippetRaw
    match jl snippet with
    | some v => some (normalizeLoaded v)
    | Option.none =>
      match le snippet with
      | some (.dict d) => some (normalize_gpt_schema (.dict d))
      | _ => Option.none

/-- One iteration of `parse_gpt_response`'s candidate loop:
`json.loads`, then `ast.literal_eval` (dicts only), then the
brace-snippet fallback; a non-dict literal result falls through to the
snippet stage, exactly as in the source. -/
def tryCandidate (jl le : RagEval.Text → Option PyVal) (c : RagEval.Text) : Option PyVal :=
  match jl c with
  | some v => some (normalizeLoaded v)
  | Option.none =>
    match le c with
    | some (.dict d) => some (normalize_gpt_schema (.dict d))
    | _ => trySnippet jl le c

/-- The error record `{"error": msg, "raw_response": raw}`. -/
def parseErrorRecord (msg : String) (raw : RagEval.Text) : PyVal :=
  .dict [("error", .str msg), ("raw_response", .str (String.mk raw))]

/-- `parse_gpt_response`, with `json.loads` (`jl`),
`ast.literal_eval` (`le`) and `normalize_json_like_text` (`nm`) as
oracle parameters: empty input short-circuits to an error record; the
stripped text and, when different, its normalized variant are tried in
order; the first success wins; if everything fails an explicit error
record carrying the raw input text is returned. -/
def parse_gpt_response (jl le : RagEval.Text → Option PyVal)
    (nm : RagEval.Text → RagEval.Text) (t : RagEval.Text) : PyVal :=
  if t.isEmpty then parseErrorRecord "回應為空白" t
  else
    let raw := stripText t
    let cands := if nm raw ≠ raw then [raw, nm raw] else [raw]
    match cands.findSome? (tryCandidate jl le) with
    | some v => v
    | Option.none => parseErrorRecord "無法解析 GPT 回應" t

end Dashboard

namespace History

/-- One evaluation record as assembled by
`EvaluationHistoryManager.save_evaluation`, abstracted to the fields
that `get_statistics` and the file filter read (`save_evaluation`
always populates all of them). -/
structure EvalRecord where
  excel_file : String
  original_final_score : ℚ
  optimized_final_score : ℚ
  deriving DecidableEq

/-- The manager state: the in-memory `history_data["evaluations"]`
list and the on-disk ledger contents. -/
structure ManagerState where
  memory : List EvalRecord
  disk : List EvalRecord
  deriving DecidableEq

/-- `save_evaluation`: the record is appended to the in-memory history
first, then the whole history is written to disk.  An unwritable store
(`writeOk = false`, the `open` call raising) is caught and reported by
returning `false`; the on-disk ledger is untouched but the in-memory
append is not rolled back. -/
def save_evaluation (s : ManagerState) (r : EvalRecord) (writeOk : Bool) :
    ManagerState × Bool :=
  let mem := s.memory ++ [r]
  if writeOk then ({ memory := mem, disk := mem }, true)
  else ({ memory := mem, disk := s.disk }, false)

/-- `get_all_evaluations` reads the in-memory history. -/
def get_all_evaluations (s : ManagerState) : List EvalRecord := s.memory

/-- The statistics dictionary of `get_statistics` (the empty-history
early return leaves the last two counters at 0). -/
structure Statistics where
  total_evaluations : Nat
  files_evaluated : Nat
  avg_improvement : ℚ
  questions_with_improvement : Nat
  questions_with_decline : Nat
  questions_unchanged : Nat
  deriving DecidableEq

/-- `get_statistics`: all aggregates are computed over the in-memory
evaluations returned by `get_all_evaluations`. -/
def get_statistics (s : ManagerState) : Statistics :=
  let evals := get_all_evaluations s
  if evals.isEmpty then ⟨0, 0, 0, 0, 0, 0⟩
  else
    let files := (evals.map (fun r => r.excel_file)).dedup
    let improvements := evals.map
      (fun r => r.optimized_final_score - r.original_final_score)
    ⟨evals.length, files.length,
     improvements.sum / (improvements.length : ℚ),
     (improvements.filter (fun i => decide (0 < i))).length,
     (improvements.filter (fun i => decide (i < 0))).length,
     (improvements.filter (fun i => decide (i = 0))).length⟩

end History

namespace Dashboard

/-- The judge record denoted by the scenario text
`{"relevance":92,"completeness":{"score":88},"accuracy":95,"faithfulness":90,"overall":91}`
(the value `json.loads` returns on it). -/
def parsedC9 : PyVal :=
  .dict [("relevance", .int 92),
         ("completeness", .dict [("score", .int 88)]),
         ("accuracy", .int 95),
         ("faithfulness", .int 90),
         ("overall", .int 91)]

/-- The normal form of `parsedC9`: bare numbers are synthesized into
blocks holding a float `score`; the already-nested completeness block
is kept as-is. -/
def expectedC9 : PyVal :=
  .dict [("relevance", .dict [("score", .float 92)]),
         ("completeness", .dict [("score", .int 88)]),
         ("accuracy", .dict [("score", .float 95)]),
         ("faithfulness", .dict [("score", .float 90)]),
         ("overall", .int 91)]

/-- The weight actually applied by `compute_gpt_overall`'s loop: the
weights of the selected dimensions that carry a parsable score. -/
def appliedWeight (gpt_data : PyVal) (dims : List String)
    (weights : List (String × ℚ)) : ℚ :=
  ((dims.filter (fun dim => (get_dimension_score gpt_data dim).isSome)).map
    (weightOf weights)).sum

/-- A judge record in which only completeness carries a score. -/
def c10Data : PyVal :=
  .dict [("completeness", .dict [("score", .int 88)]), ("overall", .int 10)]

/-- The selection used in the C10 scenario. -/
def c10Dims : List String := ["relevance", "completeness"]

/-- A weight configuration putting all weight on the score-less
dimension; `get_gpt_dimension_weights` returns it unchanged. -/
def c10Settings : Dict := [("relevance", .int 1), ("completeness", .int 0)]

end Dashboard


namespace Dashboard

/-- Whether the top-level keys of a parsed value are duplicate-free
(always true of dicts produced by `json.loads` or `ast.literal_eval`). -/
def topKeysNodup (p : PyVal) : Prop :=
  match p with
  | .dict d => (d.map Prod.fst).Nodup
  | _ => True

end Dashboard

open RagEval Dashboard History

/-- C1 (counterexample): a caller-supplied weight configuration whose
single active layer (keyword) carries weight 2 is used unchanged — the
active weights are not renormalized to 1 ± 1e-6, and the resulting
final score 100 exceeds the maximum active layer score 50, so it is
not a convex combination of the active layer scores. -/
theorem C1_weighted_aggregation_counterexample :
    initialize_weights (some ⟨2, 0, 0⟩) false false = ⟨2, 0, 0⟩ ∧
    activeWeightSum (initialize_weights (some ⟨2, 0, 0⟩) false false) false false = 2 ∧
    ¬(activeWeightSum (initialize_weights (some ⟨2, 0, 0⟩) false false) false false
        ≤ 1 + 1 / 1000000) ∧
    activeLayerScores false false 50 0 0 = [50] ∧
    evaluate_answer_final_score (initialize_weights (some ⟨2, 0, 0⟩) false false)
      false false 50 0 0 = 100 ∧
    ¬((100 : ℚ) ≤ 50) := by
  refine ⟨rfl, by norm_num [activeWeightSum, initialize_weights],
    by norm_num [activeWeightSum, initialize_weights], rfl,
    by norm_num [evaluate_answer_final_score, initialize_weights], by norm_num⟩

/-- C1 (amended): supplied weights are used exactly as given, with no
renormalization and no equal-split fallback; whenever the supplied
weights are nonnegative and already sum to 1 over the active layers,
the final score is a convex combination of the active layer scores and
stays between any common lower and upper bound of them. -/
theorem C1_weighted_aggregation_amended :
    (∀ (w : Weights) (eS eG : Bool), initialize_weights (some w) eS eG = w) ∧
    (∀ (w : Weights) (eS eG : Bool) (kw sem gpt lo hi : ℚ),
      0 ≤ w.keyword → 0 ≤ w.semantic → 0 ≤ w.gpt →
      activeWeightSum w eS eG = 1 →
      (∀ s ∈ activeLayerScores eS eG kw sem gpt, lo ≤ s ∧ s ≤ hi) →
      lo ≤ evaluate_answer_final_score w eS eG kw sem gpt ∧
        evaluate_answer_final_score w eS eG kw sem gpt ≤ hi) := by
  constructor
  · intro w eS eG; rfl
  · intro w eS eG kw sem gpt lo hi h1 h2 h3 hsum hb
    cases eS <;> cases eG <;>
      simp only [activeWeightSum, activeLayerScores, evaluate_answer_final_score,
        Bool.false_eq_true, ite_true, ite_false, if_true, if_false,
        zero_mul, add_zero, zero_add, mul_zero,
        List.mem_cons, List.mem_append, List.mem_singleton, List.not_mem_nil,
        List.nil_append, List.cons_append, or_false] at hsum hb ⊢
    · have hkw := hb kw rfl
      have hk1 : kw * w.keyword = kw * 1 := by
        have : w.keyword = 1 := by linarith
        rw [this]
      constructor <;> nlinarith [hkw.1, hkw.2]
    · have hkw := hb kw (Or.inl rfl)
      have hgpt := hb gpt (Or.inr rfl)
      have hlo : lo * w.keyword + lo * w.gpt = lo := by linear_combination lo * hsum
      have hhi : hi * w.keyword + hi * w.gpt = hi := by linear_combination hi * hsum
      constructor
      · linarith [mul_le_mul_of_nonneg_right hkw.1 h1, mul_le_mul_of_nonneg_right hgpt.1 h3]
      · linarith [mul_le_mul_of_nonneg_right hkw.2 h1, mul_le_mul_of_nonneg_right hgpt.2 h3]
    · have hkw := hb kw (Or.inl rfl)
      have hsem := hb sem (Or.inr rfl)
      have hlo : lo * w.keyword + lo * w.semantic = lo := by linear_combination lo * hsum
      have hhi : hi * w.keyword + hi * w.semantic = hi := by linear_combination hi * hsum
      constructor
      · linarith [mul_le_mul_of_nonneg_right hkw.1 h1, mul_le_mul_of_nonneg_right hsem.1 h2]
      · linarith [mul_le_mul_of_nonneg_right hkw.2 h1, mul_le_mul_of_nonneg_right hsem.2 h2]
    · have hkw := hb kw (Or.inl rfl)
      have hsem := hb sem (Or.inr (Or.inl rfl))
      have hgpt := hb gpt (Or.inr (Or.inr rfl))
      have hlo : lo * w.keyword + lo * w.semantic + lo * w.gpt = lo := by
        linear_combination lo * hsum
      have hhi : hi * w.keyword + hi * w.semantic + hi * w.gpt = hi := by
        linear_combination hi * hsum
      constructor
      · linarith [mul_le_mul_of_nonneg_right hkw.1 h1, mul_le_mul_of_nonneg_right hsem.1 h2,
          mul_le_mul_of_nonneg_right hgpt.1 h3]
      · linarith [mul_le_mul_of_nonneg_right hkw.2 h1, mul_le_mul_of_nonneg_right hsem.2 h2,
          mul_le_mul_of_nonneg_right hgpt.2 h3]

/-- C1 (witness): the amended theorem applied to the default
semantic+keyword configuration with scores 40 and 60. -/
theorem C1_weighted_aggregation_witness :
    (40 : ℚ) ≤ evaluate_answer_final_score ⟨1/2, 1/2, 0⟩ true false 40 60 0 ∧
      evaluate_answer_final_score ⟨1/2, 1/2, 0⟩ true false 40 60 0 ≤ 60 :=
  C1_weighted_aggregation_amended.2 ⟨1/2, 1/2, 0⟩ true false 40 60 0 40 60
    (by norm_num) (by norm_num) (by norm_num) (by norm_num [activeWeightSum])
    (by intro s hs
        simp [activeLayerScores] at hs
        rcases hs with h | h <;> subst h <;> norm_num)

/-- C2 (counterexample): with the nonempty keyword list [ab] and the
non-null answer xyz no keyword matches, so the coverage score is 0
although the keyword set is nonempty and the answer is not null — the
claimed iff fails in the only-if direction. -/
theorem C2_keyword_coverage_counterexample :
    (calculate_keyword_coverage (some "xyz".toList) ["ab".toList]).1 = 0 ∧
    ["ab".toList] ≠ ([] : List Text) ∧
    some "xyz".toList ≠ (none : Option Text) := by
  have h : calculate_keyword_coverage (some "xyz".toList) ["ab".toList]
      = (((0 : ℕ) : ℚ) / ((1 : ℕ) : ℚ) * 100, [],
         CoverageDetails.full 1 0 1 ["ab".toList] [] (((0 : ℕ) : ℚ) / ((1 : ℕ) : ℚ))) := rfl
  refine ⟨by rw [h]; norm_num, by decide, by decide⟩

/-- C2 (amended): the coverage score always lies in [0, 100], and it
is 0 exactly when the answer is null, or the keyword list is empty, or
no keyword matched the answer. -/
theorem C2_keyword_coverage_amended :
    ∀ (answer : Option Text) (keywords : List Text),
      (0 ≤ (calculate_keyword_coverage answer keywords).1 ∧
        (calculate_keyword_coverage answer keywords).1 ≤ 100) ∧
      ((calculate_keyword_coverage answer keywords).1 = 0 ↔
        answer = none ∨ keywords = [] ∨
          (calculate_keyword_coverage answer keywords).2.1 = []) := by
  intro answer keywords
  cases answer with
  | none => simp [calculate_keyword_coverage]
  | some ans =>
    by_cases hk : keywords = []
    · subst hk; simp [calculate_keyword_coverage]
    · have hn : (0 : ℚ) < (keywords.length : ℚ) := by
        exact_mod_cast List.length_pos.mpr hk
      have hm : (((keywords.filter (fun k => keywordMatchedBy ans k)).length : ℕ) : ℚ)
          ≤ (keywords.length : ℚ) := by
        exact_mod_cast List.length_filter_le _ _
      simp only [calculate_keyword_coverage, if_neg hk]
      refine ⟨⟨by positivity, ?_⟩, ?_⟩
      · have hr : (((keywords.filter (fun k => keywordMatchedBy ans k)).length : ℕ) : ℚ)
            / (keywords.length : ℚ) ≤ 1 := (div_le_one hn).mpr hm
        nlinarith [hr]
      · constructor
        · intro h0
          have h100 : (((keywords.filter (fun k => keywordMatchedBy ans k)).length : ℕ) : ℚ) = 0 := by
            rcases mul_eq_zero.mp h0 with h | h
            · rcases div_eq_zero_iff.mp h with h | h
              · exact h
              · exact absurd h (ne_of_gt hn)
            · norm_num at h
          refine Or.inr (Or.inr ?_)
          have : (keywords.filter (fun k => keywordMatchedBy ans k)).length = 0 := by
            exact_mod_cast h100
          exact List.length_eq_zero.mp this
        · intro h
          rcases h with h | h | h
          · exact absurd h (by simp)
          · exact absurd h hk
          · rw [h]; norm_num

/-- C7: the two zero-score cases are distinguishable through the
detail record — a null answer with a nonempty keyword list reports the
whole list as missing, while an empty keyword list reports an empty
missing list, so the two details are never equal. -/
theorem C7_zero_detail_distinguish :
    ∀ (keywords : List Text) (answer : Option Text), keywords ≠ [] →
      (calculate_keyword_coverage none keywords).2.2 = CoverageDetails.early 0 0 keywords ∧
      (calculate_keyword_coverage answer []).2.2 = CoverageDetails.early 0 0 [] ∧
      (calculate_keyword_coverage none keywords).2.2 ≠
        (calculate_keyword_coverage answer []).2.2 := by
  intro keywords answer hk
  have h2 : (calculate_keyword_coverage answer []).2.2 = CoverageDetails.early 0 0 [] := by
    cases answer <;> rfl
  refine ⟨rfl, h2, ?_⟩
  rw [h2]
  show CoverageDetails.early 0 0 keywords ≠ CoverageDetails.early 0 0 []
  simpa using hk

/-- C7 (witness): the distinguishability theorem at the keyword 工安
and a concrete non-null answer. -/
theorem C7_zero_detail_distinguish_witness :
    (calculate_keyword_coverage none ["工安".toList]).2.2
        = CoverageDetails.early 0 0 ["工安".toList] ∧
    (calculate_keyword_coverage (some "回答內容".toList) []).2.2
        = CoverageDetails.early 0 0 [] ∧
    (calculate_keyword_coverage none ["工安".toList]).2.2 ≠
      (calculate_keyword_coverage (some "回答內容".toList) []).2.2 :=
  C7_zero_detail_distinguish ["工安".toList] (some "回答內容".toList) (by decide)

/-- C4 (counterexample): appending a record to an empty ledger with
an unwritable store returns False, yet the record is visible to
get_all_evaluations and counted by get_statistics afterwards — the
failed append does not leave the ledger state unchanged. -/
theorem C4_append_atomicity_counterexample :
    (save_evaluation ⟨[], []⟩ ⟨"test.xlsx", 10, 20⟩ false).2 = false ∧
    get_all_evaluations (save_evaluation ⟨[], []⟩ ⟨"test.xlsx", 10, 20⟩ false).1
      = [⟨"test.xlsx", 10, 20⟩] ∧
    (get_statistics (save_evaluation ⟨[], []⟩ ⟨"test.xlsx", 10, 20⟩ false).1).total_evaluations
      = 1 ∧
    (get_statistics ⟨[], []⟩).total_evaluations = 0 :=
  ⟨rfl, rfl, rfl, rfl⟩

/-- C4 (amended): a successful append persists the complete record
in memory and on disk and reports success; a failed append surfaces
the failure by returning False and leaves the on-disk ledger
unchanged, but the record remains appended to the in-memory history
and is visible to subsequent queries. -/
theorem C4_append_atomicity_amended :
    ∀ (s : ManagerState) (r : EvalRecord),
      save_evaluation s r true
        = ({ memory := s.memory ++ [r], disk := s.memory ++ [r] }, true) ∧
      save_evaluation s r false
        = ({ memory := s.memory ++ [r], disk := s.disk }, false) ∧
      get_all_evaluations (save_evaluation s r false).1 = s.memory ++ [r] :=
  fun _ _ => ⟨rfl, rfl, rfl⟩

/-- C9: normalizing the scenario judge record yields four dimension
blocks each carrying a populated numeric score (bare numbers are
synthesized into blocks), the default weight configuration is an equal
1/4 split, and recomputing the overall over all four dimensions with
those weights yields exactly (92+88+95+90)/4 = 365/4 = 91.25. -/
theorem C9_scenario_normalize_and_overall :
    normalize_gpt_schema parsedC9 = expectedC9 ∧
    (∀ dim ∈ GPT_DIMENSION_KEYS,
      (get_dimension_score (normalize_gpt_schema parsedC9) dim).isSome = true) ∧
    get_gpt_dimension_weights [] GPT_DIMENSION_KEYS =
      [("relevance", 1/4), ("completeness", 1/4), ("accuracy", 1/4), ("faithfulness", 1/4)] ∧
    compute_gpt_overall (normalize_gpt_schema parsedC9) GPT_DIMENSION_KEYS
      (get_gpt_dimension_weights [] GPT_DIMENSION_KEYS) = 365/4 := by
  refine ⟨rfl, by decide, ?_, ?_⟩
  · norm_num [get_gpt_dimension_weights, dGet, dLookup, numValue, GPT_DIMENSION_KEYS]
  · norm_num [compute_gpt_overall, normalize_gpt_schema, parsedC9, GPT_DIMENSION_KEYS,
      get_gpt_dimension_weights, get_dimension_score, get_dimension_block, normStep,
      dGet, dLookup, dSet, dPop, dHasKey, pyFloat, numValue, synthBlock, weightOf]

/-- C6: the faithfulness score is always one of 50, 75, 90, 100 and
coincides with the specification's top-to-bottom decision table: null
answer gives 100; more than 2 unsupported numeric tokens or more than
1 unsupported date token gives 50; otherwise any unsupported numeric
or date token gives 75; otherwise more than 3 explanatory connective
words gives 90; otherwise 100. -/
theorem C6_faithfulness_table :
    ∀ (answer : Option FaithAnswer) (refNumbers refDates : List Text),
      ((evaluate_faithfulness answer refNumbers refDates).1 = 50 ∨
       (evaluate_faithfulness answer refNumbers refDates).1 = 75 ∨
       (evaluate_faithfulness answer refNumbers refDates).1 = 90 ∨
       (evaluate_faithfulness answer refNumbers refDates).1 = 100) ∧
      (evaluate_faithfulness answer refNumbers refDates).1 =
        faithfulnessSpecTable answer.isNone (extraNumberCount answer refNumbers)
          (extraDateCount answer refDates)
          (answer.elim 0 (fun a => explanationCount a.text)) := by
  intro answer refN refD
  cases answer with
  | none => simp [evaluate_faithfulness, faithfulnessSpecTable]
  | some a =>
    simp only [evaluate_faithfulness, faithfulnessSpecTable, extraNumberCount,
      extraDateCount, Option.isNone, Option.elim, Bool.false_eq_true, if_false, ite_false]
    constructor
    · split_ifs <;> simp
    · split_ifs <;> rfl

theorem weightOf_foldl_scored (g : PyVal) (weights : List (String × ℚ)) :
    ∀ (dims : List String) (a b : ℚ),
      (dims.foldl (fun (acc : ℚ × ℚ) dim =>
        match get_dimension_score g dim with
        | Option.none => acc
        | some v => (acc.1 + v * weightOf weights dim, acc.2 + weightOf weights dim)) (a, b))
      = (a + ((dims.filter (fun dim => (get_dimension_score g dim).isSome)).map
            (fun dim => ((get_dimension_score g dim).getD 0) * weightOf weights dim)).sum,
         b + appliedWeight g dims weights) := by
  intro dims
  induction dims with
  | nil => intro a b; simp [appliedWeight]
  | cons hd tl ih =>
    intro a b
    cases hsc : get_dimension_score g hd with
    | none =>
      simp only [List.foldl_cons, hsc, appliedWeight, List.filter_cons,
        Option.isSome_none, Bool.false_eq_true, if_false, ite_false]
      exact ih a b
    | some v =>
      simp only [List.foldl_cons, hsc, appliedWeight, List.filter_cons,
        Option.isSome_some, if_true, ite_true, List.map_cons, List.sum_cons,
        Option.getD_some]
      rw [ih]
      simp [appliedWeight]
      constructor <;> ring

theorem compute_gpt_overall_eq (d : Dict) (dims : List String)
    (weights : List (String × ℚ)) :
    compute_gpt_overall (.dict d) dims weights =
      if 0 < appliedWeight (.dict d) dims weights
      then ((dims.filter (fun dim => (get_dimension_score (.dict d) dim).isSome)).map
            (fun dim => ((get_dimension_score (.dict d) dim).getD 0)
              * weightOf weights dim)).sum / appliedWeight (.dict d) dims weights
      else (pyFloat (dGet d "overall")).getD 0 := by
  simp only [compute_gpt_overall]
  rw [weightOf_foldl_scored]
  simp only [zero_add]
  by_cases hp : 0 < appliedWeight (.dict d) dims weights
  · simp [hp]
  · simp only [hp, if_false, ite_false]
    cases pyFloat (dGet d "overall") <;> simp

/-- C10 (amended): compute_gpt_overall is total; when no selected
dimension carries a parsable score it falls back to the top-level
overall coerced through float with default 0.0; when the applied
weight over the score-carrying dimensions is positive, the result is
the weighted sum divided by that applied weight. -/
theorem C10_compute_overall_amended :
    ∀ (d : Dict) (dims : List String) (weights : List (String × ℚ)),
      ((∀ dim ∈ dims, get_dimension_score (PyVal.dict d) dim = Option.none) →
        compute_gpt_overall (PyVal.dict d) dims weights
          = (pyFloat (dGet d "overall")).getD 0) ∧
      (0 < appliedWeight (PyVal.dict d) dims weights →
        compute_gpt_overall (PyVal.dict d) dims weights
          = specWeightedOverall (PyVal.dict d) dims weights) := by
  intro d dims weights
  constructor
  · intro h
    have hfilter : dims.filter (fun dim => (get_dimension_score (PyVal.dict d) dim).isSome) = [] := by
      rw [List.filter_eq_nil_iff]
      intro dim hdim
      simp [h dim hdim]
    have happ : appliedWeight (PyVal.dict d) dims weights = 0 := by
      simp [appliedWeight, hfilter]
    rw [compute_gpt_overall_eq, happ]
    norm_num
  · intro hp
    rw [compute_gpt_overall_eq, if_pos hp]
    rfl

/-- C10 (witness): the amended theorem at a record with no scored
dimension (falls back to overall = 7) and at a single scored dimension
with weight 1. -/
theorem C10_compute_overall_witness :
    compute_gpt_overall (PyVal.dict [("overall", PyVal.int 7)]) GPT_DIMENSION_KEYS []
        = (pyFloat (dGet [("overall", PyVal.int 7)] "overall")).getD 0 ∧
    compute_gpt_overall (PyVal.dict [("relevance", PyVal.dict [("score", PyVal.int 80)])])
        ["relevance"] [("relevance", 1)]
      = specWeightedOverall
          (PyVal.dict [("relevance", PyVal.dict [("score", PyVal.int 80)])])
          ["relevance"] [("relevance", 1)] :=
  ⟨(C10_compute_overall_amended [("overall", PyVal.int 7)] GPT_DIMENSION_KEYS []).1
      (by decide),
   (C10_compute_overall_amended [("relevance", PyVal.dict [("score", PyVal.int 80)])]
      ["relevance"] [("relevance", 1)]).2
      (by simp [appliedWeight, get_dimension_score, get_dimension_block, dGet,
        dLookup, pyFloat, numValue, weightOf, synthBlock])⟩

/-- C10 (counterexample): with selection [relevance, completeness],
weights straight out of get_gpt_dimension_weights putting all weight on
relevance, and a record in which only completeness has a score, the
code takes the overall fallback (10) although a selected dimension
does carry a parsable score, so the claimed weighted-sum formula (0
here) does not describe the result. -/
theorem C10_compute_overall_counterexample :
    get_gpt_dimension_weights c10Settings c10Dims = [("relevance", 1), ("completeness", 0)] ∧
    (get_dimension_score c10Data "completeness").isSome = true ∧
    "completeness" ∈ c10Dims ∧
    compute_gpt_overall c10Data c10Dims (get_gpt_dimension_weights c10Settings c10Dims) = 10 ∧
    specWeightedOverall c10Data c10Dims (get_gpt_dimension_weights c10Settings c10Dims) = 0 ∧
    (10 : ℚ) ≠ 0 := by
  have hw : get_gpt_dimension_weights c10Settings c10Dims
      = [("relevance", 1), ("completeness", 0)] := by
    simp [get_gpt_dimension_weights, c10Settings, c10Dims, dGet, dLookup, numValue]
  refine ⟨hw, by decide, by decide, ?_, ?_, by norm_num⟩
  · rw [hw]
    simp [compute_gpt_overall, c10Data, c10Dims, get_dimension_score,
      get_dimension_block, dGet, dLookup, pyFloat, numValue, synthBlock, weightOf]
  · rw [hw]
    simp [specWeightedOverall, c10Data, c10Dims, get_dimension_score,
      get_dimension_block, dGet, dLookup, pyFloat, numValue, synthBlock, weightOf]

theorem tryCandidate_eq_none (jl le : Text → Option PyVal)
    (hjl : ∀ c, jl c = Option.none)
    (hle : ∀ (c : Text) (d : Dict), le c ≠ some (PyVal.dict d)) (c : Text) :
    tryCandidate jl le c = Option.none := by
  have hsnip : trySnippet jl le c = Option.none := by
    unfold trySnippet
    cases braceExtract c with
    | none => rfl
    | some s =>
      simp only [hjl]
      cases hlec : le (stripText s) with
      | none => simp
      | some v =>
        cases v with
        | dict d => exact absurd hlec (hle _ d)
        | none => simp
        | boolv b => simp
        | int n => simp
        | float q => simp
        | str s => simp
        | list xs => simp
  unfold tryCandidate
  simp only [hjl]
  cases hlec : le c with
  | none => simpa using hsnip
  | some v =>
    cases v with
    | dict d => exact absurd hlec (hle _ d)
    | none => simpa using hsnip
    | boolv b => simpa using hsnip
    | int n => simpa using hsnip
    | float q => simpa using hsnip
    | str s => simpa using hsnip
    | list xs => simpa using hsnip

/-- C5: the fallback parser control flow.  If every strategy fails —
json.loads fails everywhere and ast.literal_eval never yields a dict,
on the stripped text, its normalized variant, and any brace-extracted
snippet of either — the result is the explicit error record carrying
the raw input text; empty input yields the explicit empty-input error
record; and when the very first strategy (json.loads on the stripped
text) succeeds with a dict, that first success wins and is returned
normalized. -/
theorem C5_parse_error_record :
    ∀ (jl le : Text → Option PyVal) (nm : Text → Text) (t : Text),
      ((∀ c, jl c = Option.none) →
        (∀ (c : Text) (d : Dict), le c ≠ some (PyVal.dict d)) →
        t ≠ [] →
        parse_gpt_response jl le nm t = parseErrorRecord "無法解析 GPT 回應" t) ∧
      parse_gpt_response jl le nm [] = parseErrorRecord "回應為空白" [] ∧
      (∀ d : Dict, t ≠ [] → jl (stripText t) = some (PyVal.dict d) →
        parse_gpt_response jl le nm t = normalize_gpt_schema (PyVal.dict d)) := by
  intro jl le nm t
  refine ⟨?_, rfl, ?_⟩
  · intro hjl hle ht
    unfold parse_gpt_response
    have hemp : t.isEmpty = false := by
      cases t with
      | nil => exact absurd rfl ht
      | cons h l => rfl
    rw [hemp]
    simp only [Bool.false_eq_true, if_false, ite_false]
    by_cases hnm : nm (stripText t) ≠ stripText t
    · simp [hnm, List.findSome?_cons, tryCandidate_eq_none jl le hjl hle]
    · simp [hnm, List.findSome?_cons, tryCandidate_eq_none jl le hjl hle]
  · intro d ht hjl
    unfold parse_gpt_response
    have hemp : t.isEmpty = false := by
      cases t with
      | nil => exact absurd rfl ht
      | cons h l => rfl
    rw [hemp]
    simp only [Bool.false_eq_true, if_false, ite_false]
    have hcand : tryCandidate jl le (stripText t) = some (normalize_gpt_schema (PyVal.dict d)) := by
      unfold tryCandidate
      rw [hjl]
      rfl
    by_cases hnm : nm (stripText t) ≠ stripText t
    · simp [hnm, List.findSome?_cons, hcand]
    · simp [hnm, List.findSome?_cons, hcand]

/-- C5 (witness): the theorem at everywhere-failing oracles on the
text hello, and at a first-strategy success on the scenario record. -/
theorem C5_parse_error_record_witness :
    parse_gpt_response (fun _ => Option.none) (fun _ => Option.none) id "hello".toList
        = parseErrorRecord "無法解析 GPT 回應" "hello".toList ∧
    parse_gpt_response (fun _ => some parsedC9) (fun _ => Option.none) id "x".toList
        = normalize_gpt_schema parsedC9 :=
  ⟨(C5_parse_error_record (fun _ => Option.none) (fun _ => Option.none) id "hello".toList).1
      (fun _ => rfl) (fun _ _ h => Option.noConfusion h) (by decide),
   (C5_parse_error_record (fun _ => some parsedC9) (fun _ => Option.none) id "x".toList).2.2
      _ (by decide) rfl⟩

/-- C3 (counterexample): a fully populated record whose completeness
quality coefficient k = 1/2 lies outside [0.8, 1.0] produces an empty
errors list — the out-of-range k is reported only as a warning, so the
claim that out-of-range supporting metrics are hard errors fails. -/
theorem C3_validator_counterexample :
    pyFloat (dGet (get_dimension_block
        (mkFullRecord 90 90 90 90 90 (1/2) (1/2) (1/2) (1/2) (1/2)) "completeness") "k")
      = some (1/2) ∧
    ¬((0.8 : ℚ) ≤ 1/2 ∧ (1/2 : ℚ) ≤ 1) ∧
    (validate_scoring_consistency
        (mkFullRecord 90 90 90 90 90 (1/2) (1/2) (1/2) (1/2) (1/2))).2 = [] ∧
    VWarn.kRange ∈ (validate_scoring_consistency
        (mkFullRecord 90 90 90 90 90 (1/2) (1/2) (1/2) (1/2) (1/2))).1 := by
  refine ⟨rfl, by norm_num, ?_, ?_⟩
  · simp [validate_scoring_consistency, checkDim, checkMetric01, checkMetricK,
      get_dimension_block, get_dimension_score, dimensionReasoningBlank,
      mkFullRecord, mkDimBlock, mkCompletenessBlock, mkDriverBlock,
      dGet, dLookup, dSet, dPop, dHasKey, pyTruthy, pyFloat, numValue, synthBlock,
      stripText, strippedNonempty, GPT_DIMENSION_KEYS]
    norm_num
  · simp [validate_scoring_consistency, checkDim, checkMetric01, checkMetricK,
      get_dimension_block, get_dimension_score, dimensionReasoningBlank,
      mkFullRecord, mkDimBlock, mkCompletenessBlock, mkDriverBlock,
      dGet, dLookup, dSet, dPop, dHasKey, pyTruthy, pyFloat, numValue, synthBlock,
      stripText, strippedNonempty, GPT_DIMENSION_KEYS]
    norm_num

set_option maxHeartbeats 2000000 in
/-- C3 (amended): on a fully populated judge record, the validator
reports no hard error when all dimension scores and the overall lie in
[0, 100] and the supporting metrics p, q, r, g lie in [0, 1] (k may be
any parsable value); an out-of-range k in the completeness block
produces only the k-range warning, not an error; an out-of-range
dimension score produces that dimension's score-range error; an
out-of-range p produces the p-range error; and a record missing a
required dimension entirely produces exactly the missing-dimension
error. -/
theorem C3_validator_amended :
    (∀ s1 s2 s3 s4 ov p q k r g : ℚ,
      0 ≤ s1 ∧ s1 ≤ 100 → 0 ≤ s2 ∧ s2 ≤ 100 → 0 ≤ s3 ∧ s3 ≤ 100 → 0 ≤ s4 ∧ s4 ≤ 100 →
      0 ≤ ov ∧ ov ≤ 100 → 0 ≤ p ∧ p ≤ 1 → 0 ≤ q ∧ q ≤ 1 → 0 ≤ r ∧ r ≤ 1 → 0 ≤ g ∧ g ≤ 1 →
      (validate_scoring_consistency (mkFullRecord s1 s2 s3 s4 ov p q k r g)).2 = []) ∧
    (∀ s1 s2 s3 s4 ov p q k r g : ℚ,
      0 ≤ s1 ∧ s1 ≤ 100 → 0 ≤ s2 ∧ s2 ≤ 100 → 0 ≤ s3 ∧ s3 ≤ 100 → 0 ≤ s4 ∧ s4 ≤ 100 →
      0 ≤ ov ∧ ov ≤ 100 → 0 ≤ p ∧ p ≤ 1 → 0 ≤ q ∧ q ≤ 1 → 0 ≤ r ∧ r ≤ 1 → 0 ≤ g ∧ g ≤ 1 →
      ¬((0.8 : ℚ) ≤ k ∧ k ≤ 1) →
      VWarn.kRange ∈ (validate_scoring_consistency (mkFullRecord s1 s2 s3 s4 ov p q k r g)).1) ∧
    (∀ s1 s2 s3 s4 ov p q k r g : ℚ,
      ¬(0 ≤ s1 ∧ s1 ≤ 100) →
      0 ≤ s2 ∧ s2 ≤ 100 → 0 ≤ s3 ∧ s3 ≤ 100 → 0 ≤ s4 ∧ s4 ≤ 100 →
      0 ≤ ov ∧ ov ≤ 100 → 0 ≤ p ∧ p ≤ 1 → 0 ≤ q ∧ q ≤ 1 → 0 ≤ r ∧ r ≤ 1 → 0 ≤ g ∧ g ≤ 1 →
      VErr.dimScoreRange "relevance"
        ∈ (validate_scoring_consistency (mkFullRecord s1 s2 s3 s4 ov p q k r g)).2) ∧
    (∀ s1 s2 s3 s4 ov p q k r g : ℚ,
      0 ≤ s1 ∧ s1 ≤ 100 → 0 ≤ s2 ∧ s2 ≤ 100 → 0 ≤ s3 ∧ s3 ≤ 100 → 0 ≤ s4 ∧ s4 ≤ 100 →
      0 ≤ ov ∧ ov ≤ 100 →
      ¬(0 ≤ p ∧ p ≤ 1) →
      0 ≤ q ∧ q ≤ 1 → 0 ≤ r ∧ r ≤ 1 → 0 ≤ g ∧ g ≤ 1 →
      VErr.pRange ∈ (validate_scoring_consistency (mkFullRecord s1 s2 s3 s4 ov p q k r g)).2) ∧
    (∀ s2 s3 s4 ov q k r g : ℚ,
      0 ≤ s2 ∧ s2 ≤ 100 → 0 ≤ s3 ∧ s3 ≤ 100 → 0 ≤ s4 ∧ s4 ≤ 100 →
      0 ≤ ov ∧ ov ≤ 100 → 0 ≤ q ∧ q ≤ 1 → 0 ≤ r ∧ r ≤ 1 → 0 ≤ g ∧ g ≤ 1 →
      (validate_scoring_consistency (mkRecordMissingRelevance s2 s3 s4 ov q k r g)).2
        = [VErr.missingDim "relevance"]) := by
  refine ⟨?_, ?_, ?_, ?_, ?_⟩
  · intro s1 s2 s3 s4 ov p q k r g h1 h2 h3 h4 h5 h6 h7 h8 h9
    obtain ⟨a1, b1⟩ := h1; obtain ⟨a2, b2⟩ := h2; obtain ⟨a3, b3⟩ := h3
    obtain ⟨a4, b4⟩ := h4; obtain ⟨a5, b5⟩ := h5; obtain ⟨a6, b6⟩ := h6
    obtain ⟨a7, b7⟩ := h7; obtain ⟨a8, b8⟩ := h8; obtain ⟨a9, b9⟩ := h9
    by_cases hk : (0.8 : ℚ) ≤ k ∧ k ≤ 1 <;>
      simp [validate_scoring_consistency, checkDim, checkMetric01, checkMetricK,
        get_dimension_block, get_dimension_score, dimensionReasoningBlank,
        mkFullRecord, mkDimBlock, mkCompletenessBlock, mkDriverBlock,
        dGet, dLookup, dSet, dPop, dHasKey, pyTruthy, pyFloat, numValue, synthBlock,
        stripText, strippedNonempty, GPT_DIMENSION_KEYS, hk,
        a1, b1, a2, b2, a3, b3, a4, b4, a5, b5, a6, b6, a7, b7, a8, b8, a9, b9]
  · intro s1 s2 s3 s4 ov p q k r g h1 h2 h3 h4 h5 h6 h7 h8 h9 hk
    obtain ⟨a1, b1⟩ := h1; obtain ⟨a2, b2⟩ := h2; obtain ⟨a3, b3⟩ := h3
    obtain ⟨a4, b4⟩ := h4; obtain ⟨a5, b5⟩ := h5; obtain ⟨a6, b6⟩ := h6
    obtain ⟨a7, b7⟩ := h7; obtain ⟨a8, b8⟩ := h8; obtain ⟨a9, b9⟩ := h9
    simp [validate_scoring_consistency, checkDim, checkMetric01, checkMetricK,
      get_dimension_block, get_dimension_score, dimensionReasoningBlank,
      mkFullRecord, mkDimBlock, mkCompletenessBlock, mkDriverBlock,
      dGet, dLookup, dSet, dPop, dHasKey, pyTruthy, pyFloat, numValue, synthBlock,
      stripText, strippedNonempty, GPT_DIMENSION_KEYS, hk,
      a1, b1, a2, b2, a3, b3, a4, b4, a5, b5, a6, b6, a7, b7, a8, b8, a9, b9]
  · intro s1 s2 s3 s4 ov p q k r g h1 h2 h3 h4 h5 h6 h7 h8 h9
    obtain ⟨a2, b2⟩ := h2; obtain ⟨a3, b3⟩ := h3
    obtain ⟨a4, b4⟩ := h4; obtain ⟨a5, b5⟩ := h5; obtain ⟨a6, b6⟩ := h6
    obtain ⟨a7, b7⟩ := h7; obtain ⟨a8, b8⟩ := h8; obtain ⟨a9, b9⟩ := h9
    by_cases hk : (0.8 : ℚ) ≤ k ∧ k ≤ 1 <;>
      simp [validate_scoring_consistency, checkDim, checkMetric01, checkMetricK,
        get_dimension_block, get_dimension_score, dimensionReasoningBlank,
        mkFullRecord, mkDimBlock, mkCompletenessBlock, mkDriverBlock,
        dGet, dLookup, dSet, dPop, dHasKey, pyTruthy, pyFloat, numValue, synthBlock,
        stripText, strippedNonempty, GPT_DIMENSION_KEYS, hk, h1,
        a2, b2, a3, b3, a4, b4, a5, b5, a6, b6, a7, b7, a8, b8, a9, b9]
  · intro s1 s2 s3 s4 ov p q k r g h1 h2 h3 h4 h5 h6 h7 h8 h9
    obtain ⟨a1, b1⟩ := h1; obtain ⟨a2, b2⟩ := h2; obtain ⟨a3, b3⟩ := h3
    obtain ⟨a4, b4⟩ := h4; obtain ⟨a5, b5⟩ := h5
    obtain ⟨a7, b7⟩ := h7; obtain ⟨a8, b8⟩ := h8; obtain ⟨a9, b9⟩ := h9
    by_cases hk : (0.8 : ℚ) ≤ k ∧ k ≤ 1 <;>
      simp [validate_scoring_consistency, checkDim, checkMetric01, checkMetricK,
        get_dimension_block, get_dimension_score, dimensionReasoningBlank,
        mkFullRecord, mkDimBlock, mkCompletenessBlock, mkDriverBlock,
        dGet, dLookup, dSet, dPop, dHasKey, pyTruthy, pyFloat, numValue, synthBlock,
        stripText, strippedNonempty, GPT_DIMENSION_KEYS, hk, h6,
        a1, b1, a2, b2, a3, b3, a4, b4, a5, b5, a7, b7, a8, b8, a9, b9]
  · intro s2 s3 s4 ov q k r g h2 h3 h4 h5 h7 h8 h9
    obtain ⟨a2, b2⟩ := h2; obtain ⟨a3, b3⟩ := h3
    obtain ⟨a4, b4⟩ := h4; obtain ⟨a5, b5⟩ := h5
    obtain ⟨a7, b7⟩ := h7; obtain ⟨a8, b8⟩ := h8; obtain ⟨a9, b9⟩ := h9
    by_cases hk : (0.8 : ℚ) ≤ k ∧ k ≤ 1 <;>
      simp [validate_scoring_consistency, checkDim, checkMetric01, checkMetricK,
        get_dimension_block, get_dimension_score, dimensionReasoningBlank,
        mkRecordMissingRelevance, mkDimBlock, mkCompletenessBlock, mkDriverBlock,
        dGet, dLookup, dSet, dPop, dHasKey, pyTruthy, pyFloat, numValue, synthBlock,
        stripText, strippedNonempty, GPT_DIMENSION_KEYS, hk,
        a2, b2, a3, b3, a4, b4, a5, b5, a7, b7, a8, b8, a9, b9]

theorem dLookup_dSet_self (d : Dict) (k : String) (v : PyVal) :
    dLookup (dSet d k v) k = some v := by
  induction d with
  | nil => simp [dSet, dLookup]
  | cons hd tl ih =>
    obtain ⟨k', v'⟩ := hd
    by_cases h : k' = k <;> simp [dSet, dLookup, h, ih]

theorem dLookup_dSet_ne (d : Dict) (k k' : String) (v : PyVal) (h : k' ≠ k) :
    dLookup (dSet d k v) k' = dLookup d k' := by
  induction d with
  | nil => simp [dSet, dLookup, Ne.symm h]
  | cons hd tl ih =>
    obtain ⟨a, b⟩ := hd
    by_cases h1 : a = k <;> by_cases h2 : a = k' <;>
      simp_all [dSet, dLookup, Ne.symm h]

theorem dLookup_dPop_ne (d : Dict) (k k' : String) (h : k' ≠ k) :
    dLookup (dPop d k) k' = dLookup d k' := by
  induction d with
  | nil => simp [dPop]
  | cons hd tl ih =>
    obtain ⟨a, b⟩ := hd
    by_cases h1 : a = k <;> by_cases h2 : a = k' <;>
      simp_all [dPop, dLookup]

theorem dLookup_dPop_none (d : Dict) (k k' : String)
    (h : dLookup d k' = Option.none) :
    dLookup (dPop d k) k' = Option.none := by
  induction d with
  | nil => exact h
  | cons hd tl ih =>
    obtain ⟨a, b⟩ := hd
    by_cases h1 : a = k <;> by_cases h2 : a = k' <;>
      simp_all [dPop, dLookup]

theorem dLookup_eq_none_of_not_mem (d : Dict) (k : String)
    (h : k ∉ d.map Prod.fst) :
    dLookup d k = Option.none := by
  induction d with
  | nil => rfl
  | cons hd tl ih =>
    obtain ⟨a, b⟩ := hd
    simp only [List.map_cons, List.mem_cons] at h
    push_neg at h
    simp [dLookup, Ne.symm h.1, ih h.2]

theorem dLookup_dPop_self (d : Dict) (k : String)
    (h : (d.map Prod.fst).Nodup) :
    dLookup (dPop d k) k = Option.none := by
  induction d with
  | nil => rfl
  | cons hd tl ih =>
    obtain ⟨a, b⟩ := hd
    simp only [List.map_cons, List.nodup_cons] at h
    by_cases h1 : a = k
    · subst h1
      simpa [dPop] using dLookup_eq_none_of_not_mem tl a h.1
    · simp [dPop, dLookup, h1, ih h.2]

theorem mem_keys_dSet (d : Dict) (k k' : String) (v : PyVal) :
    k' ∈ (dSet d k v).map Prod.fst ↔ k' ∈ d.map Prod.fst ∨ k' = k := by
  induction d with
  | nil => simp [dSet]
  | cons hd tl ih =>
    obtain ⟨a, b⟩ := hd
    by_cases h1 : a = k
    all_goals simp_all [dSet]
    all_goals tauto

theorem dSet_keys_nodup (d : Dict) (k : String) (v : PyVal)
    (h : (d.map Prod.fst).Nodup) :
    ((dSet d k v).map Prod.fst).Nodup := by
  induction d with
  | nil => simp [dSet]
  | cons hd tl ih =>
    obtain ⟨a, b⟩ := hd
    simp only [List.map_cons, List.nodup_cons] at h
    by_cases h1 : a = k
    · simp only [dSet, h1, if_true, ite_true, List.map_cons, List.nodup_cons]
      exact ⟨h1 ▸ h.1, h.2⟩
    · simp only [dSet, h1, if_false, ite_false, List.map_cons, List.nodup_cons]
      refine ⟨?_, ih h.2⟩
      intro hmem
      rcases (mem_keys_dSet tl k a v).mp hmem with hm | hm
      · exact h.1 hm
      · exact h1 hm

theorem keys_dPop_subset (d : Dict) (k : String) :
    (dPop d k).map Prod.fst ⊆ d.map Prod.fst := by
  induction d with
  | nil => simp [dPop]
  | cons hd tl ih =>
    obtain ⟨a, b⟩ := hd
    by_cases h1 : a = k
    · simp only [dPop, h1, if_true, ite_true, List.map_cons]
      intro x hx
      exact List.mem_cons_of_mem _ hx
    · intro x hx
      simp only [dPop, h1, if_false, ite_false, List.map_cons, List.mem_cons] at hx ⊢
      rcases hx with hx | hx
      · exact Or.inl hx
      · exact Or.inr (ih hx)

theorem dPop_keys_nodup (d : Dict) (k : String)
    (h : (d.map Prod.fst).Nodup) :
    ((dPop d k).map Prod.fst).Nodup := by
  induction d with
  | nil => simp [dPop]
  | cons hd tl ih =>
    obtain ⟨a, b⟩ := hd
    simp only [List.map_cons, List.nodup_cons] at h
    by_cases h1 : a = k
    · simp [dPop, h1, h.2]
    · simp only [dPop, h1, if_false, ite_false, List.map_cons, List.nodup_cons]
      exact ⟨fun hmem => h.1 (keys_dPop_subset tl k hmem), ih h.2⟩

theorem dGet_eq_dict_lookup (d : Dict) (k : String) (v : Dict)
    (h : dGet d k = PyVal.dict v) : dLookup d k = some (PyVal.dict v) := by
  unfold dGet at h
  cases hl : dLookup d k with
  | none => rw [hl] at h; exact absurd h (by simp)
  | some x => rw [hl] at h; simp at h; rw [h]

theorem hasKey_false_lookup_none (d : Dict) (k : String)
    (h : ¬ dHasKey d k = true) : dLookup d k = Option.none := by
  unfold dHasKey at h
  cases hl : dLookup d k with
  | none => rfl
  | some x => rw [hl] at h; simp at h

theorem lookup_after_set_pop_aux (d : Dict) (dim : String)
    (h : (d.map Prod.fst).Nodup) (hne : dim ≠ dim ++ "_reasoning") (b : Dict) :
    (∃ v, dLookup (dSet (if dHasKey d (dim ++ "_reasoning") = true
        then dPop d (dim ++ "_reasoning") else d) dim (PyVal.dict b)) dim
      = some (PyVal.dict v)) ∧
    dLookup (dSet (if dHasKey d (dim ++ "_reasoning") = true
        then dPop d (dim ++ "_reasoning") else d) dim (PyVal.dict b)) (dim ++ "_reasoning")
      = Option.none := by
  constructor
  · exact ⟨b, dLookup_dSet_self _ _ _⟩
  · rw [dLookup_dSet_ne _ _ _ _ (Ne.symm hne)]
    by_cases hk : dHasKey d (dim ++ "_reasoning") = true
    · rw [if_pos hk]; exact dLookup_dPop_self _ _ h
    · rw [if_neg hk]; exact hasKey_false_lookup_none d _ hk

theorem normStep_lookup_self (d : Dict) (dim : String)
    (h : (d.map Prod.fst).Nodup) (hne : dim ≠ dim ++ "_reasoning") :
    (∃ v, dLookup (normStep d dim) dim = some (PyVal.dict v)) ∧
    dLookup (normStep d dim) (dim ++ "_reasoning") = Option.none := by
  unfold normStep
  cases hdg : dGet d dim with
  | dict v =>
    dsimp only
    have hl := dGet_eq_dict_lookup d dim v hdg
    by_cases hc : (dHasKey d (dim ++ "_reasoning")
        && !dHasKey v "reasoning" && pyTruthy (dGet d (dim ++ "_reasoning"))) = true
    · rw [if_pos hc]
      have hnod : ((dSet d dim (PyVal.dict (dSet v "reasoning"
          (dGet d (dim ++ "_reasoning"))))).map Prod.fst).Nodup :=
        dSet_keys_nodup d dim _ h
      by_cases hk : dHasKey (dSet d dim (PyVal.dict (dSet v "reasoning"
          (dGet d (dim ++ "_reasoning"))))) (dim ++ "_reasoning") = true
      · rw [if_pos hk]
        refine ⟨⟨dSet v "reasoning" (dGet d (dim ++ "_reasoning")), ?_⟩, ?_⟩
        · rw [dLookup_dPop_ne _ _ _ hne, dLookup_dSet_self]
        · exact dLookup_dPop_self _ _ hnod
      · rw [if_neg hk]
        exact ⟨⟨_, dLookup_dSet_self _ _ _⟩, hasKey_false_lookup_none _ _ hk⟩
    · rw [if_neg hc]
      by_cases hk : dHasKey d (dim ++ "_reasoning") = true
      · rw [if_pos hk]
        refine ⟨⟨v, ?_⟩, dLookup_dPop_self _ _ h⟩
        rw [dLookup_dPop_ne _ _ _ hne, hl]
      · rw [if_neg hk]
        exact ⟨⟨v, hl⟩, hasKey_false_lookup_none _ _ hk⟩
  | none => exact lookup_after_set_pop_aux d dim h hne _
  | boolv b => exact lookup_after_set_pop_aux d dim h hne _
  | int n => exact lookup_after_set_pop_aux d dim h hne _
  | float q => exact lookup_after_set_pop_aux d dim h hne _
  | str s => exact lookup_after_set_pop_aux d dim h hne _
  | list xs => exact lookup_after_set_pop_aux d dim h hne _

theorem set_pop_keys_nodup_aux (d : Dict) (dim rk : String) (b : Dict)
    (h : (d.map Prod.fst).Nodup) :
    ((dSet (if dHasKey d rk = true then dPop d rk else d) dim (PyVal.dict b)).map
      Prod.fst).Nodup := by
  by_cases hk : dHasKey d rk = true
  · rw [if_pos hk]; exact dSet_keys_nodup _ _ _ (dPop_keys_nodup _ _ h)
  · rw [if_neg hk]; exact dSet_keys_nodup _ _ _ h

theorem normStep_keys_nodup (d : Dict) (dim : String)
    (h : (d.map Prod.fst).Nodup) :
    ((normStep d dim).map Prod.fst).Nodup := by
  unfold normStep
  cases hdg : dGet d dim with
  | dict v =>
    dsimp only
    split
    · split
      · exact dPop_keys_nodup _ _ (dSet_keys_nodup _ _ _ h)
      · exact dSet_keys_nodup _ _ _ h
    · split
      · exact dPop_keys_nodup _ _ h
      · exact h
  | none => exact set_pop_keys_nodup_aux d dim _ _ h
  | boolv b => exact set_pop_keys_nodup_aux d dim _ _ h
  | int n => exact set_pop_keys_nodup_aux d dim _ _ h
  | float q => exact set_pop_keys_nodup_aux d dim _ _ h
  | str s => exact set_pop_keys_nodup_aux d dim _ _ h
  | list xs => exact set_pop_keys_nodup_aux d dim _ _ h

theorem preserve_after_set_pop_aux (d : Dict) (dim dim' : String)
    (b v0 : Dict)
    (h1 : dim' ≠ dim) (h2 : dim' ≠ dim ++ "_reasoning")
    (h3s : dim' ++ "_reasoning" ≠ dim)
    (hv : dLookup d dim' = some (PyVal.dict v0))
    (hr : dLookup d (dim' ++ "_reasoning") = Option.none) :
    dLookup (dSet (if dHasKey d (dim ++ "_reasoning") = true
        then dPop d (dim ++ "_reasoning") else d) dim (PyVal.dict b)) dim'
      = some (PyVal.dict v0) ∧
    dLookup (dSet (if dHasKey d (dim ++ "_reasoning") = true
        then dPop d (dim ++ "_reasoning") else d) dim (PyVal.dict b))
      (dim' ++ "_reasoning") = Option.none := by
  constructor
  · split <;> simp [dLookup_dSet_ne, dLookup_dPop_ne, h1, h2, hv]
  · split <;> simp [dLookup_dSet_ne, dLookup_dPop_none, h3s, hr]

theorem normStep_preserves_normed (d : Dict) (dim dim' : String)
    (h1 : dim' ≠ dim) (h2 : dim' ≠ dim ++ "_reasoning")
    (h3 : dim ≠ dim' ++ "_reasoning")
    (hv : ∃ v, dLookup d dim' = some (PyVal.dict v))
    (hr : dLookup d (dim' ++ "_reasoning") = Option.none) :
    (∃ v, dLookup (normStep d dim) dim' = some (PyVal.dict v)) ∧
    dLookup (normStep d dim) (dim' ++ "_reasoning") = Option.none := by
  obtain ⟨v0, hv⟩ := hv
  have h3s : dim' ++ "_reasoning" ≠ dim := Ne.symm h3
  unfold normStep
  cases hdg : dGet d dim with
  | dict v =>
    dsimp only
    split
    · split
      · exact ⟨⟨v0, by simp [dLookup_dPop_ne, dLookup_dSet_ne, h1, h2, hv]⟩,
          by simp [dLookup_dPop_none, dLookup_dSet_ne, h3s, hr]⟩
      · exact ⟨⟨v0, by simp [dLookup_dSet_ne, h1, hv]⟩,
          by simp [dLookup_dSet_ne, h3s, hr]⟩
    · split
      · exact ⟨⟨v0, by simp [dLookup_dPop_ne, h2, hv]⟩,
          by simp [dLookup_dPop_none, hr]⟩
      · exact ⟨⟨v0, hv⟩, hr⟩
  | none =>
    exact ⟨⟨v0, (preserve_after_set_pop_aux d dim dim' _ v0 h1 h2 h3s hv hr).1⟩,
      (preserve_after_set_pop_aux d dim dim' _ v0 h1 h2 h3s hv hr).2⟩
  | boolv b =>
    exact ⟨⟨v0, (preserve_after_set_pop_aux d dim dim' _ v0 h1 h2 h3s hv hr).1⟩,
      (preserve_after_set_pop_aux d dim dim' _ v0 h1 h2 h3s hv hr).2⟩
  | int n =>
    exact ⟨⟨v0, (preserve_after_set_pop_aux d dim dim' _ v0 h1 h2 h3s hv hr).1⟩,
      (preserve_after_set_pop_aux d dim dim' _ v0 h1 h2 h3s hv hr).2⟩
  | float q =>
    exact ⟨⟨v0, (preserve_after_set_pop_aux d dim dim' _ v0 h1 h2 h3s hv hr).1⟩,
      (preserve_after_set_pop_aux d dim dim' _ v0 h1 h2 h3s hv hr).2⟩
  | str s =>
    exact ⟨⟨v0, (preserve_after_set_pop_aux d dim dim' _ v0 h1 h2 h3s hv hr).1⟩,
      (preserve_after_set_pop_aux d dim dim' _ v0 h1 h2 h3s hv hr).2⟩
  | list xs =>
    exact ⟨⟨v0, (preserve_after_set_pop_aux d dim dim' _ v0 h1 h2 h3s hv hr).1⟩,
      (preserve_after_set_pop_aux d dim dim' _ v0 h1 h2 h3s hv hr).2⟩

theorem normStep_id_of_normed (d : Dict) (dim : String)
    (hv : ∃ v, dLookup d dim = some (PyVal.dict v))
    (hr : dLookup d (dim ++ "_reasoning") = Option.none) :
    normStep d dim = d := by
  obtain ⟨v, hv⟩ := hv
  have hdg : dGet d dim = PyVal.dict v := by simp [dGet, hv]
  have hk : dHasKey d (dim ++ "_reasoning") = false := by simp [dHasKey, hr]
  unfold normStep
  rw [hdg]
  dsimp only
  simp [hk]

/-- C8: normalize_gpt_schema is idempotent on every parsed value whose
top-level keys are duplicate-free (all dicts coming out of json.loads
or ast.literal_eval): normalizing an already-normalized judge record
is a no-op. -/
theorem C8_normalize_idempotent :
    ∀ p : PyVal, topKeysNodup p →
      normalize_gpt_schema (normalize_gpt_schema p) = normalize_gpt_schema p := by
  intro p hp
  cases p with
  | none => rfl
  | boolv b => rfl
  | int n => rfl
  | float q => rfl
  | str s => rfl
  | list xs => rfl
  | dict d =>
    have n0 : (d.map Prod.fst).Nodup := hp
    have n1 := normStep_keys_nodup d "relevance" n0
    have n2 := normStep_keys_nodup _ "completeness" n1
    have n3 := normStep_keys_nodup _ "accuracy" n2
    have a1 := normStep_lookup_self d "relevance" n0 (by decide)
    have a1b := normStep_preserves_normed _ "completeness" "relevance"
      (by decide) (by decide) (by decide) a1.1 a1.2
    have a1c := normStep_preserves_normed _ "accuracy" "relevance"
      (by decide) (by decide) (by decide) a1b.1 a1b.2
    have a1d := normStep_preserves_normed _ "faithfulness" "relevance"
      (by decide) (by decide) (by decide) a1c.1 a1c.2
    have a2 := normStep_lookup_self _ "completeness" n1 (by decide)
    have a2b := normStep_preserves_normed _ "accuracy" "completeness"
      (by decide) (by decide) (by decide) a2.1 a2.2
    have a2c := normStep_preserves_normed _ "faithfulness" "completeness"
      (by decide) (by decide) (by decide) a2b.1 a2b.2
    have a3 := normStep_lookup_self _ "accuracy" n2 (by decide)
    have a3b := normStep_preserves_normed _ "faithfulness" "accuracy"
      (by decide) (by decide) (by decide) a3.1 a3.2
    have a4 := normStep_lookup_self _ "faithfulness" n3 (by decide)
    simp only [normalize_gpt_schema, GPT_DIMENSION_KEYS, List.foldl_cons, List.foldl_nil]
    rw [normStep_id_of_normed _ "relevance" a1d.1 a1d.2,
      normStep_id_of_normed _ "completeness" a2c.1 a2c.2,
      normStep_id_of_normed _ "accuracy" a3b.1 a3b.2,
      normStep_id_of_normed _ "faithfulness" a4.1 a4.2]

/-- C8 (witness): idempotence at the scenario record. -/
theorem C8_normalize_idempotent_witness :
    normalize_gpt_schema (normalize_gpt_schema parsedC9) = normalize_gpt_schema parsedC9 :=
  C8_normalize_idempotent parsedC9 (by dsimp only [topKeysNodup, parsedC9]; decide)

/-- C3 (witness): the amended validator theorem at concrete records —
an in-range record validates with no errors; k = 1/2 yields only the
k-range warning; a relevance score of 150 yields its range error; p =
2 yields the p-range error; a record missing the relevance dimension
yields exactly the missing-dimension error. -/
theorem C3_validator_amended_witness :
    (validate_scoring_consistency
        (mkFullRecord 90 85 95 88 90 (9/10) (8/10) (9/10) (7/10) 1)).2 = [] ∧
    VWarn.kRange ∈ (validate_scoring_consistency
        (mkFullRecord 90 85 95 88 90 (9/10) (8/10) (1/2) (7/10) 1)).1 ∧
    VErr.dimScoreRange "relevance" ∈ (validate_scoring_consistency
        (mkFullRecord 150 85 95 88 90 (9/10) (8/10) (9/10) (7/10) 1)).2 ∧
    VErr.pRange ∈ (validate_scoring_consistency
        (mkFullRecord 90 85 95 88 90 2 (8/10) (9/10) (7/10) 1)).2 ∧
    (validate_scoring_consistency
        (mkRecordMissingRelevance 85 95 88 90 (8/10) (9/10) (7/10) 1)).2
      = [VErr.missingDim "relevance"] :=
  ⟨C3_validator_amended.1 90 85 95 88 90 (9/10) (8/10) (9/10) (7/10) 1
      (by norm_num) (by norm_num) (by norm_num) (by norm_num) (by norm_num)
      (by norm_num) (by norm_num) (by norm_num) (by norm_num),
   C3_validator_amended.2.1 90 85 95 88 90 (9/10) (8/10) (1/2) (7/10) 1
      (by norm_num) (by norm_num) (by norm_num) (by norm_num) (by norm_num)
      (by norm_num) (by norm_num) (by norm_num) (by norm_num) (by norm_num),
   C3_validator_amended.2.2.1 150 85 95 88 90 (9/10) (8/10) (9/10) (7/10) 1
      (by norm_num) (by norm_num) (by norm_num) (by norm_num) (by norm_num)
      (by norm_num) (by norm_num) (by norm_num) (by norm_num),
   C3_validator_amended.2.2.2.1 90 85 95 88 90 2 (8/10) (9/10) (7/10) 1
      (by norm_num) (by norm_num) (by norm_num) (by norm_num) (by norm_num)
      (by norm_num) (by norm_num) (by norm_num) (by norm_num),
   C3_validator_amended.2.2.2.2 85 95 88 90 (8/10) (9/10) (7/10) 1
      (by norm_num) (by norm_num) (by norm_num) (by norm_num)
      (by norm_num) (by norm_num) (by norm_num)⟩
